import Mathlib

/-!
Verification of `src/ad_lldb.py`, the lldb pretty-printing plugin of the
`ad` repository.  The script defines three functions over lldb's
introspection API: `is_null`, `show_sname_scope_t` and `show_sname_t`.
We embed them shallowly: an `SBValue` carries the two observations the
script makes of it (`IsValid`, `GetValueAsUnsigned`), and a `Host`
bundles the read-only introspection capabilities the script calls on the
debugger (`FindFirstType`, `GetPointerType`, `GetChildMemberWithName`,
`Cast`, `GetSummary`).  The linked-list iteration of
`SBValue.linked_list_iter` (provided by lldb, not by this repository) is
embedded with explicit fuel; a stabilisation theorem shows the result is
independent of the fuel once the chain has reached its null terminator.
-/

set_option linter.unusedVariables false

/-- An lldb `SBType` handle; the script only passes these around opaquely,
so an abstract identifier suffices. -/
structure SBType where
  id : Nat
deriving DecidableEq

/-- An lldb `SBValue` as observed by the script: the script reads only
`IsValid()` and `GetValueAsUnsigned()` directly, and resolves children,
casts and summaries through the debugger (see `Host`). -/
structure SBValue where
  isValid : Bool
  valueAsUnsigned : Nat
deriving DecidableEq

/-- The debugger's read-only introspection capability, as used by the
script: `target.FindFirstType`, `SBType.GetPointerType`,
`SBValue.GetChildMemberWithName`, `SBValue.Cast`, `SBValue.GetSummary`.
(`lldb.debugger.GetSelectedTarget()` is folded into the structure: the
target is only ever used for `FindFirstType`.) -/
structure Host where
  findFirstType : String → SBType
  getPointerType : SBType → SBType
  getChildMemberWithName : SBValue → String → SBValue
  cast : SBValue → SBType → SBValue
  getSummary : SBValue → String

/-- A Python exception, as far as this script can raise one. -/
inductive PyErr where
  | nameError (name : String)
deriving DecidableEq

/-- `is_null(ptr)`: `not ptr.IsValid() or ptr.GetValueAsUnsigned() == 0`. -/
def is_null (ptr : SBValue) : Bool :=
  !ptr.isValid || ptr.valueAsUnsigned == 0

/-- Python's `str.strip(chars)` on a list of characters: remove every
leading and every trailing character equal to `c`. -/
def stripChars (c : Char) (l : List Char) : List Char :=
  ((l.dropWhile (fun x => x == c)).reverse.dropWhile (fun x => x == c)).reverse

/-- Python's `s.strip(c)` for a one-character `chars` argument: remove all
leading and trailing occurrences of `c`. -/
def pyStrip (s : String) (c : Char) : String :=
  ⟨stripChars c s.data⟩

/-- `show_sname_scope_t(sname_scope, internal_dict)` of `ad_lldb.py`. -/
def show_sname_scope_t (host : Host) (sname_scope : SBValue) : String :=
  let sname_scope_ptr_t := host.getPointerType (host.findFirstType "sname_scope_t")
  let rv := ""
  let rv :=
    let void_data_ptr := host.getChildMemberWithName sname_scope "data"
    if !(is_null void_data_ptr) then
      let sname_scope_ptr := host.cast void_data_ptr sname_scope_ptr_t
      let name_ptr := host.getChildMemberWithName sname_scope_ptr "name"
      if !(is_null name_ptr) then
        pyStrip (host.getSummary name_ptr) '"'
      else rv
    else rv
  "\"" ++ rv ++ "\""

/-- Evaluating the bare identifier `sname_scope_t` on line 63 of
`ad_lldb.py` (`sname_scope_ptr = void_data_ptr.Cast(sname_scope_t)`):
the name is bound neither locally (the local variable is
`sname_scope_ptr_t`), nor at module level, nor as a builtin, so Python
raises `NameError` before `Cast` is invoked. -/
def python_name_sname_scope_t : Except PyErr SBType :=
  .error (.nameError "sname_scope_t")

/-- The end-of-list test of lldb's `SBValue.linked_list_iter`: an item
ends the list when it is invalid or a null pointer. -/
def eol (val : SBValue) : Bool :=
  !val.isValid || val.valueAsUnsigned == 0

/-- The sequence of items yielded by `head.linked_list_iter('next')`
(provided by lldb, not by this repository): yield the current item while
it is valid and non-null, then move to its `next` child.  `fuel` bounds
the number of steps; `linked_list_iter_stable` shows the result does not
depend on the fuel once the chain has reached an end-of-list item. -/
def linked_list_iter (host : Host) : Nat → SBValue → List SBValue
  | 0, _ => []
  | fuel + 1, item =>
    if eol item then []
    else item :: linked_list_iter host fuel (host.getChildMemberWithName item "next")

/-- The item reached from `v` after following the `next` child `n` times. -/
def nextChain (host : Host) : Nat → SBValue → SBValue
  | 0, v => v
  | n + 1, v => nextChain host n (host.getChildMemberWithName v "next")

/-- One iteration of the `for slist_node_ptr in head.linked_list_iter('next')`
loop body of `show_sname_t`, acting on the state `(colon2, rv)`.  When
`data` is non-null the body evaluates the unbound name `sname_scope_t`
(see `python_name_sname_scope_t`) and therefore raises. -/
def show_sname_t_node (host : Host) (st : Bool × String) (slist_node_ptr : SBValue) :
    Except PyErr (Bool × String) :=
  let void_data_ptr := host.getChildMemberWithName slist_node_ptr "data"
  if !(is_null void_data_ptr) then
    match python_name_sname_scope_t with
    | .error e => .error e
    | .ok t =>
      let sname_scope_ptr := host.cast void_data_ptr t
      let name_ptr := host.getChildMemberWithName sname_scope_ptr "name"
      if !(is_null name_ptr) then
        let (colon2, rv) := st
        let (colon2, rv) := if colon2 then (colon2, rv ++ "::") else (true, rv)
        .ok (colon2, rv ++ pyStrip (host.getSummary name_ptr) '"')
      else .ok st
  else .ok st

/-- The whole `for` loop of `show_sname_t` over the yielded items:
thread `(colon2, rv)` through `show_sname_t_node`, propagating an
uncaught exception. -/
def show_sname_t_loop (host : Host) : Bool × String → List SBValue → Except PyErr (Bool × String)
  | st, [] => .ok st
  | st, node :: rest =>
    match show_sname_t_node host st node with
    | .error e => .error e
    | .ok st' => show_sname_t_loop host st' rest

/-- `show_sname_t(sname, internal_dict)` of `ad_lldb.py`, with `fuel`
bounding the linked-list iteration (see `linked_list_iter`). -/
def show_sname_t (host : Host) (fuel : Nat) (sname : SBValue) : Except PyErr String :=
  let sname_scope_ptr_t := host.getPointerType (host.findFirstType "sname_scope_t")
  let head := host.getChildMemberWithName sname "head"
  match show_sname_t_loop host (false, "") (linked_list_iter host fuel head) with
  | .error e => .error e
  | .ok st => .ok ("\"" ++ st.2 ++ "\"")

/-- The specification's reading of the quote-stripping step: remove
exactly ONE layer of surrounding quote characters — one leading `c` if
present and one trailing `c` if present — rather than all of them.
This is the claim's wording, to be compared with `stripChars` (the
source's `str.strip` semantics). -/
def stripOneLayerChars (c : Char) (l : List Char) : List Char :=
  let l1 :=
    match l with
    | [] => []
    | x :: xs => if x == c then xs else x :: xs
  match l1.reverse with
  | [] => l1
  | y :: ys => if y == c then ys.reverse else l1

/-- The specification's one-layer strip on strings (see
`stripOneLayerChars`). -/
def stripOneLayer (s : String) (c : Char) : String :=
  ⟨stripOneLayerChars c s.data⟩

/-- `show_sname_scope_t` with the debugger capability threaded as
explicit state: each introspection call takes the current `Host` and
returns it alongside its result.  The lldb calls the script makes are
read-only queries, so each primitive returns the host unchanged; the
theorems about this definition make that observable fact, and its
consequences for repeated calls, explicit. -/
def show_sname_scope_t_st (sname_scope : SBValue) (h0 : Host) : String × Host :=
  let (t, h1) := (h0.findFirstType "sname_scope_t", h0)
  let (sname_scope_ptr_t, h2) := (h1.getPointerType t, h1)
  let (void_data_ptr, h3) := (h2.getChildMemberWithName sname_scope "data", h2)
  if !(is_null void_data_ptr) then
    let (sname_scope_ptr, h4) := (h3.cast void_data_ptr sname_scope_ptr_t, h3)
    let (name_ptr, h5) := (h4.getChildMemberWithName sname_scope_ptr "name", h4)
    if !(is_null name_ptr) then
      let (s, h6) := (h5.getSummary name_ptr, h5)
      ("\"" ++ pyStrip s '"' ++ "\"", h6)
    else ("\"\"", h5)
  else ("\"\"", h3)

/-- One loop iteration of `show_sname_t` with the host threaded as
explicit state (state-passing version of `show_sname_t_node`). -/
def show_sname_t_node_st (st : Bool × String) (slist_node_ptr : SBValue) (h0 : Host) :
    Except PyErr ((Bool × String) × Host) :=
  let (void_data_ptr, h1) := (h0.getChildMemberWithName slist_node_ptr "data", h0)
  if !(is_null void_data_ptr) then
    match python_name_sname_scope_t with
    | .error e => .error e
    | .ok t =>
      let (sname_scope_ptr, h2) := (h1.cast void_data_ptr t, h1)
      let (name_ptr, h3) := (h2.getChildMemberWithName sname_scope_ptr "name", h2)
      if !(is_null name_ptr) then
        let (s, h4) := (h3.getSummary name_ptr, h3)
        let (colon2, rv) := st
        let (colon2, rv) := if colon2 then (colon2, rv ++ "::") else (true, rv)
        .ok ((colon2, rv ++ pyStrip s '"'), h4)
      else .ok (st, h3)
  else .ok (st, h1)

/-- The `for` loop of `show_sname_t` with the host threaded as explicit
state (state-passing version of `show_sname_t_loop`). -/
def show_sname_t_loop_st :
    Bool × String → List SBValue → Host → Except PyErr ((Bool × String) × Host)
  | st, [], h => .ok (st, h)
  | st, node :: rest, h =>
    match show_sname_t_node_st st node h with
    | .error e => .error e
    | .ok (st', h') => show_sname_t_loop_st st' rest h'

/-- `show_sname_t` with the host threaded as explicit state
(state-passing version of `show_sname_t`). -/
def show_sname_t_st (fuel : Nat) (sname : SBValue) (h0 : Host) :
    Except PyErr (String × Host) :=
  let (t, h1) := (h0.findFirstType "sname_scope_t", h0)
  let (sname_scope_ptr_t, h2) := (h1.getPointerType t, h1)
  let (head, h3) := (h2.getChildMemberWithName sname "head", h2)
  let (nodes, h4) := (linked_list_iter h3 fuel head, h3)
  match show_sname_t_loop_st (false, "") nodes h4 with
  | .error e => .error e
  | .ok (st, h5) => .ok ("\"" ++ st.2 ++ "\"", h5)

/-- A scope value for the concrete hosts below. -/
def vFoo : SBValue := ⟨true, 100⟩

/-- A name value for the concrete hosts below. -/
def vSname : SBValue := ⟨true, 50⟩

/-- Concrete snapshot: `vFoo`'s `data` is the valid non-null pointer at
address 10, whose `name` is the valid non-null pointer at address 20,
whose display summary is `"Foo"` (the host's usual single quote layer). -/
def hostFoo : Host where
  findFirstType := fun _ => ⟨0⟩
  getPointerType := fun t => ⟨t.id + 1⟩
  getChildMemberWithName := fun v f =>
    if v.valueAsUnsigned == 100 && f == "data" then ⟨true, 10⟩
    else if v.valueAsUnsigned == 10 && f == "name" then ⟨true, 20⟩
    else ⟨false, 0⟩
  cast := fun v _ => v
  getSummary := fun v => if v.valueAsUnsigned == 20 then "\"Foo\"" else "?"

/-- `hostFoo` with one extra layer of quotes around every summary, so the
name's summary reads `""Foo""`. -/
def hostFoo2 : Host :=
  { hostFoo with getSummary := fun v => "\"" ++ hostFoo.getSummary v ++ "\"" }

/-- Concrete snapshot in which every child resolution fails (invalid
values), so every `data` pointer is null. -/
def hostInvalid : Host :=
  { hostFoo with getChildMemberWithName := fun _ _ => ⟨false, 0⟩ }

/-- Concrete snapshot in which `data` resolves to a valid non-null
pointer but the named scope's `name` pointer is null. -/
def hostNamelessScope : Host :=
  { hostFoo with
    getChildMemberWithName := fun v f =>
      if v.valueAsUnsigned == 100 && f == "data" then ⟨true, 10⟩
      else if v.valueAsUnsigned == 10 && f == "name" then ⟨true, 0⟩
      else ⟨false, 0⟩ }

/-- Concrete snapshot whose name value has a null `head` pointer (empty
list). -/
def hostEmptyList : Host :=
  { hostFoo with
    getChildMemberWithName := fun v f =>
      if f == "head" then ⟨true, 0⟩ else ⟨false, 0⟩ }

/-- Concrete snapshot: a two-node list with qualifying scopes named
`"S"` then `"T"` (node addresses 1 and 2, named scopes 11 and 12, name
strings 21 and 22, `next` of the second node null). -/
def hostST : Host where
  findFirstType := fun _ => ⟨0⟩
  getPointerType := fun t => ⟨t.id + 1⟩
  getChildMemberWithName := fun v f =>
    if f == "head" then ⟨true, 1⟩
    else if v.valueAsUnsigned == 1 && f == "next" then ⟨true, 2⟩
    else if v.valueAsUnsigned == 2 && f == "next" then ⟨true, 0⟩
    else if v.valueAsUnsigned == 1 && f == "data" then ⟨true, 11⟩
    else if v.valueAsUnsigned == 2 && f == "data" then ⟨true, 12⟩
    else if v.valueAsUnsigned == 11 && f == "name" then ⟨true, 21⟩
    else if v.valueAsUnsigned == 12 && f == "name" then ⟨true, 22⟩
    else ⟨false, 0⟩
  cast := fun v _ => v
  getSummary := fun v =>
    if v.valueAsUnsigned == 21 then "\"S\""
    else if v.valueAsUnsigned == 22 then "\"T\"" else "?"

/-- Concrete snapshot: a one-node list whose single node has a valid
non-null `data` pointer (a single qualifying scope named `"S"`). -/
def hostOne : Host :=
  { hostST with
    getChildMemberWithName := fun v f =>
      if f == "head" then ⟨true, 1⟩
      else if v.valueAsUnsigned == 1 && f == "next" then ⟨true, 0⟩
      else if v.valueAsUnsigned == 1 && f == "data" then ⟨true, 11⟩
      else if v.valueAsUnsigned == 11 && f == "name" then ⟨true, 21⟩
      else ⟨false, 0⟩ }

/-- Concrete snapshot: a two-node list whose nodes both have null `data`
pointers, reaching the null terminator after two `next` steps. -/
def hostChain : Host :=
  { hostST with
    getChildMemberWithName := fun v f =>
      if f == "head" then ⟨true, 1⟩
      else if v.valueAsUnsigned == 1 && f == "next" then ⟨true, 2⟩
      else if v.valueAsUnsigned == 2 && f == "next" then ⟨true, 0⟩
      else ⟨false, 0⟩ }

theorem linked_list_iter_nil (host : Host) (fuel : Nat) {v : SBValue} (h : eol v = true) :
    linked_list_iter host fuel v = [] := by
  cases fuel <;> simp [linked_list_iter, h]

theorem stripChars_cons (c : Char) (l : List Char) :
    stripChars c (c :: l) = stripChars c l := by
  simp [stripChars, List.dropWhile_cons]

theorem stripChars_concat (c : Char) (l : List Char) :
    stripChars c (l ++ [c]) = stripChars c l := by
  unfold stripChars
  rw [List.dropWhile_append]
  by_cases h : (l.dropWhile (fun x => x == c)).isEmpty
  · have hnil : l.dropWhile (fun x => x == c) = [] := by
      simpa [List.isEmpty_iff] using h
    simp [h, hnil, List.dropWhile_cons]
  · simp [h, List.reverse_append, List.dropWhile_cons]

theorem pyStrip_wrap (s : String) :
    pyStrip ("\"" ++ s ++ "\"") '"' = pyStrip s '"' := by
  have hd : ("\"" ++ s ++ "\"").data = '"' :: (s.data ++ ['"']) := by
    rw [String.data_append, String.data_append]
    rfl
  simp [pyStrip, hd, stripChars_cons, stripChars_concat]

theorem linked_list_iter_stable (host : Host) :
    ∀ (n : Nat) (v : SBValue), eol (nextChain host n v) = true →
      ∀ m, n ≤ m → linked_list_iter host m v = linked_list_iter host n v := by
  intro n
  induction n with
  | zero =>
    intro v h m hm
    have h0 : eol v = true := h
    rw [linked_list_iter_nil host m h0, linked_list_iter_nil host 0 h0]
  | succ n ih =>
    intro v h m hm
    cases m with
    | zero => exact absurd hm (Nat.not_succ_le_zero n)
    | succ m =>
      cases he : eol v with
      | true => simp [linked_list_iter, he]
      | false =>
        have h' : eol (nextChain host n (host.getChildMemberWithName v "next")) = true := by
          simpa [nextChain] using h
        simp only [linked_list_iter, he, Bool.false_eq_true, if_false]
        rw [ih (host.getChildMemberWithName v "next") h' m (Nat.le_of_succ_le_succ hm)]

theorem show_sname_scope_t_st_spec (v : SBValue) (h : Host) :
    show_sname_scope_t_st v h = (show_sname_scope_t h v, h) := by
  cases h1 : is_null (h.getChildMemberWithName v "data") <;>
    cases h2 : is_null (h.getChildMemberWithName
      (h.cast (h.getChildMemberWithName v "data")
        (h.getPointerType (h.findFirstType "sname_scope_t"))) "name") <;>
    simp [show_sname_scope_t_st, show_sname_scope_t, h1, h2]

theorem show_sname_t_node_st_spec (st : Bool × String) (node : SBValue) (h : Host) :
    show_sname_t_node_st st node h =
      (show_sname_t_node h st node).map (fun st' => (st', h)) := by
  cases hd : is_null (h.getChildMemberWithName node "data") <;>
    simp [show_sname_t_node_st, show_sname_t_node, python_name_sname_scope_t, hd, Except.map]

theorem show_sname_t_loop_st_spec (nodes : List SBValue) :
    ∀ (st : Bool × String) (h : Host),
      show_sname_t_loop_st st nodes h =
        (show_sname_t_loop h st nodes).map (fun st' => (st', h)) := by
  induction nodes with
  | nil => intro st h; simp [show_sname_t_loop_st, show_sname_t_loop, Except.map]
  | cons node rest ih =>
    intro st h
    rw [show_sname_t_loop_st, show_sname_t_loop, show_sname_t_node_st_spec]
    cases hn : show_sname_t_node h st node with
    | error e => simp [Except.map]
    | ok st' => simp [Except.map, ih]

theorem show_sname_t_st_spec (fuel : Nat) (v : SBValue) (h : Host) :
    show_sname_t_st fuel v h = (show_sname_t h fuel v).map (fun s => (s, h)) := by
  simp only [show_sname_t_st, show_sname_t]
  rw [show_sname_t_loop_st_spec]
  cases show_sname_t_loop h (false, "")
      (linked_list_iter h fuel (h.getChildMemberWithName v "head")) <;>
    simp [Except.map]

/-- C9: `is_null` returns true if and only if the introspected value is
invalid or its numeric address equals zero; it is a total function with
no side effects and in particular does not fail on an invalid value. -/
theorem is_null_spec (p : SBValue) :
    is_null p = true ↔ (p.isValid = false ∨ p.valueAsUnsigned = 0) := by
  cases p with
  | mk valid addr => simp [is_null]

/-- C4: for every scope value whose `data` pointer is null or invalid,
and for every scope value whose `data` is valid but whose named-scope
`name` pointer is null, `show_sname_scope_t` returns the two-character
string consisting of an opening and a closing double quote. -/
theorem show_sname_scope_t_null_gives_empty (host : Host) (v : SBValue)
    (h : is_null (host.getChildMemberWithName v "data") = true ∨
      (is_null (host.getChildMemberWithName v "data") = false ∧
       is_null (host.getChildMemberWithName
         (host.cast (host.getChildMemberWithName v "data")
           (host.getPointerType (host.findFirstType "sname_scope_t"))) "name") = true)) :
    show_sname_scope_t host v = "\"\"" := by
  rcases h with h | ⟨h1, h2⟩
  · simp [show_sname_scope_t, h]
  · simp [show_sname_scope_t, h1, h2]

/-- Witness for C4: under `hostInvalid` the `data` pointer is invalid,
and under `hostNamelessScope` the `data` pointer is valid but the `name`
pointer is null; in both cases the formatter returns `""`. -/
theorem show_sname_scope_t_null_gives_empty_witness :
    show_sname_scope_t hostInvalid vFoo = "\"\"" ∧
    show_sname_scope_t hostNamelessScope vFoo = "\"\"" :=
  ⟨show_sname_scope_t_null_gives_empty hostInvalid vFoo (Or.inl (by decide)),
   show_sname_scope_t_null_gives_empty hostNamelessScope vFoo
     (Or.inr ⟨by decide, by decide⟩)⟩

/-- C3 (amended): for every scope value whose `data` pointer is non-null
and whose named-scope `name` pointer is non-null, `show_sname_scope_t`
obtains the host's display summary of the name, strips ALL consecutive
surrounding double-quote characters from it (Python `str.strip`
semantics), and wraps the result in double quotes. -/
theorem show_sname_scope_t_strips_all_quotes (host : Host) (v : SBValue)
    (h1 : is_null (host.getChildMemberWithName v "data") = false)
    (h2 : is_null (host.getChildMemberWithName
      (host.cast (host.getChildMemberWithName v "data")
        (host.getPointerType (host.findFirstType "sname_scope_t"))) "name") = false) :
    show_sname_scope_t host v =
      "\"" ++ pyStrip (host.getSummary (host.getChildMemberWithName
        (host.cast (host.getChildMemberWithName v "data")
          (host.getPointerType (host.findFirstType "sname_scope_t"))) "name")) '"' ++ "\"" := by
  simp [show_sname_scope_t, h1, h2]

/-- Witness for C3: under `hostFoo` the name's display summary is
`"Foo"` and the formatter returns `"Foo"` with the literal quotes. -/
theorem show_sname_scope_t_strips_all_quotes_witness :
    show_sname_scope_t hostFoo vFoo = "\"Foo\"" := by
  rw [show_sname_scope_t_strips_all_quotes hostFoo vFoo (by decide) (by decide)]
  rfl

/-- C3 (counterexample): under `hostFoo2` the name's display summary is
`""Foo""`; stripping exactly one layer of surrounding quotes would yield
the body `"Foo"` and hence the output `""Foo""`, but `show_sname_scope_t`
does not produce that output (it strips all boundary quotes and returns
`"Foo"`). -/
theorem show_sname_scope_t_one_layer_false :
    show_sname_scope_t hostFoo2 vFoo ≠
      "\"" ++ stripOneLayer (hostFoo2.getSummary (hostFoo2.getChildMemberWithName
        (hostFoo2.cast (hostFoo2.getChildMemberWithName vFoo "data")
          (hostFoo2.getPointerType (hostFoo2.findFirstType "sname_scope_t"))) "name")) '"'
        ++ "\"" := by
  decide

/-- C10: the quote-stripping step of `show_sname_scope_t` removes every
consecutive double-quote character at both ends of the host's display
summary, not exactly one layer: wrapping every summary of a snapshot in
one extra layer of double quotes leaves the formatter's output
unchanged. -/
theorem strip_removes_all_boundary_quotes (h1 h2 : Host) (v : SBValue)
    (e1 : h2.getChildMemberWithName = h1.getChildMemberWithName)
    (e2 : h2.cast = h1.cast)
    (e3 : h2.findFirstType = h1.findFirstType)
    (e4 : h2.getPointerType = h1.getPointerType)
    (e5 : ∀ x, h2.getSummary x = "\"" ++ h1.getSummary x ++ "\"") :
    (∀ s, pyStrip ("\"" ++ s ++ "\"") '"' = pyStrip s '"') ∧
    show_sname_scope_t h2 v = show_sname_scope_t h1 v := by
  refine ⟨pyStrip_wrap, ?_⟩
  simp only [show_sname_scope_t, e1, e2, e3, e4, e5, pyStrip_wrap]

/-- Witness for C10: `hostFoo2` is `hostFoo` with one extra quote layer
on every summary (`""Foo""` instead of `"Foo"`), and the two snapshots
produce the same output. -/
theorem strip_removes_all_boundary_quotes_witness :
    show_sname_scope_t hostFoo2 vFoo = show_sname_scope_t hostFoo vFoo :=
  (strip_removes_all_boundary_quotes hostFoo hostFoo2 vFoo rfl rfl rfl rfl
    (fun x => rfl)).2

/-- C5: for every name value whose `head` pointer is null (empty list),
`show_sname_t` returns the two-character string consisting of an opening
and a closing double quote, for any fuel bound. -/
theorem show_sname_t_empty_list (host : Host) (fuel : Nat) (sname : SBValue)
    (h : (host.getChildMemberWithName sname "head").valueAsUnsigned = 0) :
    show_sname_t host fuel sname = .ok "\"\"" := by
  have he : eol (host.getChildMemberWithName sname "head") = true := by
    simp [eol, h]
  simp only [show_sname_t]
  rw [linked_list_iter_nil host fuel he]
  rfl

/-- Witness for C5: under `hostEmptyList` the `head` pointer is null and
the formatter returns `""`. -/
theorem show_sname_t_empty_list_witness :
    (hostEmptyList.getChildMemberWithName vSname "head").valueAsUnsigned = 0 ∧
    show_sname_t hostEmptyList 3 vSname = .ok "\"\"" :=
  ⟨by decide, show_sname_t_empty_list hostEmptyList 3 vSname (by decide)⟩

/-- C1: contrary to the claim, a name value whose list contains
qualifying nodes does not yield the `::`-joined names: under `hostST`,
whose list has two qualifying nodes with display names `"S"` then `"T"`,
`show_sname_t` raises `NameError` at the first qualifying node — line 63
of `ad_lldb.py` evaluates the unbound identifier `sname_scope_t` (the
local variable is `sname_scope_ptr_t`) — instead of returning `"S::T"`
as the function's own docstring promises. -/
theorem show_sname_t_qualifying_nodes_raise :
    show_sname_t hostST 5 vSname = .error (.nameError "sname_scope_t") := rfl

/-- C2: contrary to the claim, `show_sname_t` can raise: under
`hostOne`, whose single node has a valid non-null `data` pointer, the
call propagates `NameError` (unbound identifier `sname_scope_t` on line
63) instead of returning a string; the resolution failure aborts the
traversal rather than degrading to an empty contribution. -/
theorem show_sname_t_single_node_raises :
    show_sname_t hostOne 3 vSname = .error (.nameError "sname_scope_t") := rfl

/-- C6: `show_sname_scope_t` always returns a double-quote-wrapped
string, but contrary to the claim not every call of `show_sname_t`
produces a string at all: under `hostOne` the call raises `NameError`
(unbound identifier `sname_scope_t` on line 63). -/
theorem formatters_output_shape :
    (∀ (host : Host) (v : SBValue),
      ∃ body, show_sname_scope_t host v = "\"" ++ body ++ "\"") ∧
    show_sname_t hostOne 1 vSname = .error (.nameError "sname_scope_t") :=
  ⟨fun host v => ⟨_, rfl⟩, rfl⟩

/-- C7: both formatters are pure, deterministic functions of the
introspected memory snapshot: in the state-threaded embedding, running a
formatter and then running it again on the resulting snapshot state is
the same as running it once — the first call leaves the snapshot
unchanged and the second call yields the identical output (including the
identical exception, where `show_sname_t` raises). -/
theorem formatters_idempotent (h : Host) (v : SBValue) (fuel : Nat) :
    show_sname_scope_t_st v (show_sname_scope_t_st v h).2 = show_sname_scope_t_st v h ∧
    (show_sname_t_st fuel v h).bind (fun p => show_sname_t_st fuel v p.2) =
      show_sname_t_st fuel v h := by
  constructor
  · simp [show_sname_scope_t_st_spec]
  · rw [show_sname_t_st_spec]
    cases hres : show_sname_t h fuel v with
    | error e => simp [Except.map, Except.bind]
    | ok s => simp [Except.map, Except.bind, show_sname_t_st_spec, hres]

/-- C8: if the linked list starting at `head` reaches a null (or
invalid) terminator after `n` steps of `next`, the traversal of
`show_sname_t` terminates there: its result with any larger fuel bound
equals its result with fuel `n`, so the fuel-free loop of the source
computes exactly this fixed value. -/
theorem show_sname_t_terminates_on_finite_list (host : Host) (sname : SBValue) (n : Nat)
    (hfin : eol (nextChain host n (host.getChildMemberWithName sname "head")) = true) :
    ∀ m, n ≤ m → show_sname_t host m sname = show_sname_t host n sname := by
  intro m hm
  simp only [show_sname_t]
  rw [linked_list_iter_stable host n (host.getChildMemberWithName sname "head") hfin m hm]

/-- Witness for C8: under `hostChain` the chain from `head` reaches the
null terminator after two `next` steps, and the formatter's result with
fuel 9 equals its result with fuel 2. -/
theorem show_sname_t_terminates_on_finite_list_witness :
    eol (nextChain hostChain 2 (hostChain.getChildMemberWithName vSname "head")) = true ∧
    show_sname_t hostChain 9 vSname = show_sname_t hostChain 2 vSname :=
  ⟨by decide,
   show_sname_t_terminates_on_finite_list hostChain vSname 2 (by decide) 9 (by decide)⟩
